import Mathlib

/-!
Verification of the presentation-builder wrapper (`ppt_generator.py`,
class `PPTGenerator`) against its design specification.

The wrapper accumulates slides in a `python-pptx` `Presentation` object and
writes the file on `save`.  We shallowly embed the wrapper: the pieces of
library state the wrapper actually sets (paragraph text, font size, font
color, bold, alignment, pictures, chart data, background fill) are recorded
in explicit Lean structures; the file system (`os.path.exists`,
`os.path.abspath`, the written files) is passed explicitly.  Python
exceptions become explicit error values.
-/

set_option autoImplicit false

namespace PPT

/-- `pptx.dml.color.RGBColor`: three 8-bit channels.  Channels are kept as
`Int` because callers hand the constructor arbitrary Python integers. -/
structure RGBColor where
  r : Int
  g : Int
  b : Int
deriving DecidableEq, Repr

/-- Errors surfaced by the wrapper's calls (Python exceptions).
`invalidColor` is the `ValueError` raised by `RGBColor()` on a channel
outside `[0, 255]` (the spec's `InvalidColor`); `ioError` stands for an
OS-level failure of the underlying file write during `save`. -/
inductive PPTError where
  | invalidColor
  | ioError
deriving DecidableEq, Repr

/-- A channel value accepted by `RGBColor()`: an integer in `[0, 255]`. -/
def validChannel (v : Int) : Bool :=
  decide (0 ≤ v) && decide (v ≤ 255)

/-- A color tuple accepted by `RGBColor()`: all three channels valid. -/
def validColor (c : Int × Int × Int) : Bool :=
  validChannel c.1 && validChannel c.2.1 && validChannel c.2.2

/-- `RGBColor(r, g, b)`: validates each channel is in `[0, 255]`, raising
`ValueError` (modelled as `PPTError.invalidColor`) otherwise.  This is the
constructor's documented behaviour in `pptx/dml/color.py`. -/
def RGBColor.make (c : Int × Int × Int) : Except PPTError RGBColor :=
  if validColor c then
    .ok ⟨c.1, c.2.1, c.2.2⟩
  else
    .error .invalidColor

/-- A paragraph as the wrapper configures it: its text, and the font
attributes the wrapper sets (`none` = left at the library default /
inherited).  `alignCenter` records `alignment = PP_ALIGN.CENTER`, the only
alignment the wrapper ever sets. -/
structure Para where
  text : String := ""
  size : Option Nat := none
  color : Option RGBColor := none
  bold : Option Bool := none
  alignCenter : Bool := false
deriving DecidableEq, Repr

/-- `XL_CHART_TYPE` members used by the wrapper's `chart_type_map`. -/
inductive XLChartType where
  | columnClustered
  | line
  | pie
deriving DecidableEq, Repr

/-- One named series handed to `CategoryChartData.add_series`.  The demo
callers pass integer values, so values are modelled as `Int`. -/
structure ChartSeries where
  name : String
  values : List Int
deriving DecidableEq, Repr

/-- The `CategoryChartData` object built inside `add_chart_slide`:
`categories` assigned once, then one `add_series` call per input series,
in order.  Neither step validates that lengths match. -/
structure CategoryChartData where
  categories : List String
  series : List ChartSeries
deriving DecidableEq, Repr

/-- The `chart_data` dictionary argument of `add_chart_slide`:
`{"categories": [...], "series": [{"name": ..., "values": [...]}]}`.
The code reads both keys with `.get(..., [])`, so missing keys behave as
empty lists; the record's fields carry the retrieved values. -/
structure ChartInput where
  categories : List String := []
  series : List ChartSeries := []
deriving DecidableEq, Repr

/-- A slide as assembled by the wrapper: one variant per `add_*` method,
carrying exactly the content the method writes into the slide's shapes. -/
inductive Slide where
  | titleSlide (title : Para) (subtitle : Option Para)
  | contentSlide (title : Para) (body : List Para)
  | twoColumnSlide (title : Para) (left : List Para) (right : List Para)
  | imageSlide (title : Para) (picture : Option String) (caption : Option Para)
  | chartSlide (title : Para) (chartType : XLChartType) (data : CategoryChartData)
  | sectionSlide (title : Para) (background : Option RGBColor)
deriving DecidableEq, Repr

/-- The `PPTGenerator` object: the accumulated slides of
`self.presentation` plus the styling attributes set in `__init__`
(defaults as in the source: 44/28/18 pt, dark blue `(31,73,125)`,
light blue `(79,129,189)`). -/
structure PPTGenerator where
  slides : List Slide := []
  title_font_size : Nat := 44
  subtitle_font_size : Nat := 28
  content_font_size : Nat := 18
  primary_color : RGBColor := ⟨31, 73, 125⟩
  accent_color : RGBColor := ⟨79, 129, 189⟩
deriving DecidableEq, Repr

/-- The file-system environment the wrapper consults: `os.path.exists`,
the slides contained in a template file (what `Presentation(path)` would
load), the process working directory (for `os.path.abspath`), and whether
the OS write performed by `presentation.save(path)` fails. -/
structure Env where
  fileExists : String → Bool
  templateSlides : String → List Slide
  cwd : String
  writeFails : String → Bool

/-- Python `s.endswith(post)`: `post` is a suffix of `s`. -/
def strEndsWith (s post : String) : Bool :=
  post.data.isSuffixOf s.data

/-- Modelled from `os.path.abspath`: prefixes the working directory to a
relative path (path normalization is not modelled; it never changes the
final path component). -/
def abspath (cwd filename : String) : String :=
  if "/".data.isPrefixOf filename.data then filename else cwd ++ "/" ++ filename

/-- The files on disk: path ↦ slide sequence serialized there. -/
def FileStore := String → Option (List Slide)

/-- `PPTGenerator.__init__`: loads `template_path` only when it is truthy
and `os.path.exists` holds; otherwise a blank default presentation (zero
slides).  The styling attributes are set afterwards in either case. -/
def PPTGenerator.init (env : Env) (template_path : Option String) : PPTGenerator :=
  match template_path with
  | some p => if (p != "") && env.fileExists p then { slides := env.templateSlides p } else {}
  | none => {}

/-- `add_title_slide`: appends a slide on layout 0; the title gets
`title_font_size`, `primary_color`, bold; if `author` is non-empty it is
appended to the subtitle as an attribution line; the subtitle placeholder
is written only when the combined text is non-empty, with
`subtitle_font_size` and `accent_color`.  Returns the new slide. -/
def PPTGenerator.add_title_slide (g : PPTGenerator) (title subtitle author : String) :
    PPTGenerator × Slide :=
  let titlePara : Para :=
    { text := title, size := some g.title_font_size, color := some g.primary_color,
      bold := some true }
  let full_subtitle := if author != "" then subtitle ++ "\n\nPresented by: " ++ author else subtitle
  let sub : Option Para :=
    if full_subtitle != "" then
      some { text := full_subtitle, size := some g.subtitle_font_size,
             color := some g.accent_color }
    else none
  let s := Slide.titleSlide titlePara sub
  ({ g with slides := g.slides ++ [s] }, s)

/-- The body paragraphs `add_content_slide` writes into the content
placeholder: `text_frame.clear()` leaves a single empty paragraph when
`content` is empty; otherwise one paragraph per item, at
`content_font_size` in gray `(64,64,64)`, the text overwritten with
`"{i+1}. {item}"` when `layout_type == "numbered"`. -/
def contentParas (g : PPTGenerator) (content : List String) (layout_type : String) : List Para :=
  match content with
  | [] => [{}]
  | _ =>
    content.enum.map fun p =>
      { text := if layout_type = "numbered" then toString (p.1 + 1) ++ ". " ++ p.2 else p.2,
        size := some g.content_font_size, color := some ⟨64, 64, 64⟩ }

/-- `add_content_slide`: appends a slide on layout 1 with a 36 pt bold
title in `primary_color` and the body paragraphs of `contentParas`. -/
def PPTGenerator.add_content_slide (g : PPTGenerator) (title : String) (content : List String)
    (layout_type : String) : PPTGenerator × Slide :=
  let titlePara : Para :=
    { text := title, size := some 36, color := some g.primary_color, bold := some true }
  let s := Slide.contentSlide titlePara (contentParas g content layout_type)
  ({ g with slides := g.slides ++ [s] }, s)

/-- The paragraphs written into one column of a two-column slide: same as
`contentParas` but never numbered. -/
def columnParas (g : PPTGenerator) (content : List String) : List Para :=
  match content with
  | [] => [{}]
  | _ =>
    content.map fun item =>
      { text := item, size := some g.content_font_size, color := some ⟨64, 64, 64⟩ }

/-- `add_two_column_slide`: appends a slide on layout 3 with a 36 pt bold
title in `primary_color` and independent left and right columns. -/
def PPTGenerator.add_two_column_slide (g : PPTGenerator) (title : String)
    (left_content right_content : List String) : PPTGenerator × Slide :=
  let titlePara : Para :=
    { text := title, size := some 36, color := some g.primary_color, bold := some true }
  let s := Slide.twoColumnSlide titlePara (columnParas g left_content) (columnParas g right_content)
  ({ g with slides := g.slides ++ [s] }, s)

/-- `add_image_slide`: appends a slide on the blank layout with a centered
36 pt bold title in `primary_color`.  The picture is added only `if
os.path.exists(image_path)`; the caption textbox (14 pt, gray `(96,96,96)`,
centered) is added only when the image exists and `caption` is non-empty.
A missing image raises nothing — the slide is appended without a picture. -/
def PPTGenerator.add_image_slide (g : PPTGenerator) (env : Env) (title image_path caption : String) :
    PPTGenerator × Slide :=
  let titlePara : Para :=
    { text := title, size := some 36, color := some g.primary_color, bold := some true,
      alignCenter := true }
  let picture : Option String := if env.fileExists image_path then some image_path else none
  let cap : Option Para :=
    if env.fileExists image_path && (caption != "") then
      some { text := caption, size := some 14, color := some ⟨96, 96, 96⟩, alignCenter := true }
    else none
  let s := Slide.imageSlide titlePara picture cap
  ({ g with slides := g.slides ++ [s] }, s)

/-- `chart_type_map.get(chart_type, XL_CHART_TYPE.COLUMN_CLUSTERED)`:
the three known keys, any other string falling back to clustered column. -/
def chart_type_map (chart_type : String) : XLChartType :=
  if chart_type = "column" then .columnClustered
  else if chart_type = "line" then .line
  else if chart_type = "pie" then .pie
  else .columnClustered

/-- `add_chart_slide`: appends a slide on layout 5 with a 36 pt bold title
in `primary_color`, builds a `CategoryChartData` from the input dictionary
(categories assigned, each series added in order — no shape validation
anywhere), and adds a chart of the mapped type. -/
def PPTGenerator.add_chart_slide (g : PPTGenerator) (title : String) (chart_data : ChartInput)
    (chart_type : String) : PPTGenerator × Slide :=
  let titlePara : Para :=
    { text := title, size := some 36, color := some g.primary_color, bold := some true }
  let dataObj : CategoryChartData :=
    { categories := chart_data.categories, series := chart_data.series }
  let s := Slide.chartSlide titlePara (chart_type_map chart_type) dataObj
  ({ g with slides := g.slides ++ [s] }, s)

/-- `add_section_slide`: appends a slide on layout 2 with a centered 54 pt
bold white title.  The slide is appended *before* the background fill is
applied, so when `RGBColor(*background_color)` raises on an out-of-range
channel the slide (without background) is already in the presentation and
the exception propagates (`Except.error`). -/
def PPTGenerator.add_section_slide (g : PPTGenerator) (section_title : String)
    (background_color : Option (Int × Int × Int)) : PPTGenerator × Except PPTError Slide :=
  let titlePara : Para :=
    { text := section_title, size := some 54, color := some ⟨255, 255, 255⟩, bold := some true,
      alignCenter := true }
  match background_color with
  | none =>
    let s := Slide.sectionSlide titlePara none
    ({ g with slides := g.slides ++ [s] }, .ok s)
  | some c =>
    match RGBColor.make c with
    | .error e =>
      let s := Slide.sectionSlide titlePara none
      ({ g with slides := g.slides ++ [s] }, .error e)
    | .ok col =>
      let s := Slide.sectionSlide titlePara (some col)
      ({ g with slides := g.slides ++ [s] }, .ok s)

/-- `set_theme_colors`: `self.primary_color = RGBColor(*primary_color)`
then `self.accent_color = RGBColor(*accent_color)`.  Each constructor call
may raise; the first assignment has already happened when the second
raises, so the state after the call is returned alongside the outcome. -/
def PPTGenerator.set_theme_colors (g : PPTGenerator) (primary_color accent_color : Int × Int × Int) :
    PPTGenerator × Option PPTError :=
  match RGBColor.make primary_color with
  | .error e => (g, some e)
  | .ok p =>
    let g := { g with primary_color := p }
    match RGBColor.make accent_color with
    | .error e => (g, some e)
    | .ok a => ({ g with accent_color := a }, none)

/-- The filename `save` actually uses: `.pptx` appended when absent. -/
def fixExt (filename : String) : String :=
  if strEndsWith filename ".pptx" then filename else filename ++ ".pptx"

/-- `save`: fixes the extension, resolves the absolute path, and writes the
accumulated slides there (`presentation.save(full_path)`), returning the
full path.  The generator state is not touched.  A failing OS write leaves
the store unchanged and raises (`Except.error`). -/
def PPTGenerator.save (g : PPTGenerator) (env : Env) (store : FileStore) (filename : String) :
    PPTGenerator × FileStore × Except PPTError String :=
  let filename := fixExt filename
  let full_path := abspath env.cwd filename
  if env.writeFails full_path then
    (g, store, .error .ioError)
  else
    (g, fun p => if p = full_path then some g.slides else store p, .ok full_path)

/-- `get_slide_count`: `len(self.presentation.slides)`. -/
def PPTGenerator.get_slide_count (g : PPTGenerator) : Nat :=
  g.slides.length

/-! ## Sequences of `add_*` calls

To reason about arbitrary mixes of slide kinds we reify one `add_*` call
as an `Op` and interpret a list of them in order. -/

/-- One `add_*` call with its arguments. -/
inductive Op where
  | title (t s a : String)
  | content (t : String) (items : List String) (layout : String)
  | twoCol (t : String) (l r : List String)
  | image (t path cap : String)
  | chart (t : String) (d : ChartInput) (ct : String)
  | sect (t : String) (bg : Option (Int × Int × Int))

/-- Perform one `add_*` call; the `Bool` records whether it completed
without raising (only `add_section_slide` can raise, on an invalid
background color — and even then the slide is already appended). -/
def applyOp (env : Env) (g : PPTGenerator) : Op → PPTGenerator × Bool
  | .title t s a => ((g.add_title_slide t s a).1, true)
  | .content t items layout => ((g.add_content_slide t items layout).1, true)
  | .twoCol t l r => ((g.add_two_column_slide t l r).1, true)
  | .image t p c => ((g.add_image_slide env t p c).1, true)
  | .chart t d ct => ((g.add_chart_slide t d ct).1, true)
  | .sect t bg =>
    ((g.add_section_slide t bg).1, (g.add_section_slide t bg).2.isOk)

/-- Perform a sequence of `add_*` calls, stopping at the first one that
raises (as the exception would propagate in the caller). -/
def runOps (env : Env) (g : PPTGenerator) : List Op → PPTGenerator × Bool
  | [] => (g, true)
  | op :: rest =>
    match applyOp env g op with
    | (g2, true) => runOps env g2 rest
    | (g2, false) => (g2, false)

/-- Every `add_*` call appends exactly one slide (even a raising
`add_section_slide` has already appended its slide). -/
theorem applyOp_slides_length (env : Env) (g : PPTGenerator) (op : Op) :
    ((applyOp env g op).1).slides.length = g.slides.length + 1 := by
  cases op <;>
    simp [applyOp, PPTGenerator.add_title_slide, PPTGenerator.add_content_slide,
      PPTGenerator.add_two_column_slide, PPTGenerator.add_image_slide,
      PPTGenerator.add_chart_slide, PPTGenerator.add_section_slide]
  case sect t bg =>
    cases bg with
    | none => simp
    | some c => cases h : RGBColor.make c <;> simp [h]

/-- A fully successful run of `N` calls appends exactly `N` slides. -/
theorem runOps_slides_length (env : Env) (g : PPTGenerator) (ops : List Op)
    (h : (runOps env g ops).2 = true) :
    ((runOps env g ops).1).slides.length = g.slides.length + ops.length := by
  induction ops generalizing g with
  | nil => simp [runOps]
  | cons op rest ih =>
    have hlen := applyOp_slides_length env g op
    rw [runOps] at h ⊢
    cases hA : applyOp env g op with
    | mk g2 ok =>
      rw [hA] at h hlen
      cases ok with
      | false => simp at h
      | true =>
        simp at hlen ⊢
        simp [hA] at h
        rw [ih g2 h, hlen]
        omega

/-! ## Helper projections and a concrete environment for witnesses -/

/-- The title paragraph of any slide variant. -/
def Slide.titleOf : Slide → Para
  | .titleSlide t _ => t
  | .contentSlide t _ => t
  | .twoColumnSlide t _ _ => t
  | .imageSlide t _ _ => t
  | .chartSlide t _ _ => t
  | .sectionSlide t _ => t

/-- The body texts of a content slide (empty for other variants). -/
def Slide.contentTexts : Slide → List String
  | .contentSlide _ body => body.map Para.text
  | _ => []

/-- An environment in which no file exists, the working directory is
`/work`, and every OS write succeeds. -/
def envNoFiles : Env :=
  { fileExists := fun _ => false, templateSlides := fun _ => [], cwd := "/work",
    writeFails := fun _ => false }

/-! ## Claims -/

/-- C1: for every sequence of successful `add_*` calls on a fresh
generator, in any mix of slide kinds, `get_slide_count()` returns exactly
the number of calls.  `get_slide_count` is `len(self.presentation.slides)`,
a pure query: in the embedding it is a plain function of the state and
appears on the left without any state change. -/
theorem C1_slide_count_after_appends (env : Env) (ops : List Op)
    (h : (runOps env (PPTGenerator.init env none) ops).2 = true) :
    ((runOps env (PPTGenerator.init env none) ops).1).get_slide_count = ops.length := by
  have := runOps_slides_length env (PPTGenerator.init env none) ops h
  simpa [PPTGenerator.get_slide_count, PPTGenerator.init] using this

/-- C1 witness: a six-call mix of all slide kinds succeeds and counts 6. -/
theorem C1_witness :
    (runOps envNoFiles (PPTGenerator.init envNoFiles none)
      [Op.title "T" "S" "A", Op.content "C" ["x", "y"] "numbered",
       Op.twoCol "Two" ["l"] ["r"], Op.image "I" "img.png" "cap",
       Op.chart "Ch" ⟨["Q1", "Q2"], [⟨"s", [1, 2, 3]⟩]⟩ "bar",
       Op.sect "Sec" (some (0, 100, 200))]).2 = true ∧
    ((runOps envNoFiles (PPTGenerator.init envNoFiles none)
      [Op.title "T" "S" "A", Op.content "C" ["x", "y"] "numbered",
       Op.twoCol "Two" ["l"] ["r"], Op.image "I" "img.png" "cap",
       Op.chart "Ch" ⟨["Q1", "Q2"], [⟨"s", [1, 2, 3]⟩]⟩ "bar",
       Op.sect "Sec" (some (0, 100, 200))]).1).get_slide_count = 6 :=
  ⟨by decide, C1_slide_count_after_appends envNoFiles _ (by decide)⟩

/-- C2 counterexample: the claim says a dataset with `categories =
["Q1","Q2"]` and a series `values = [1,2,3]` fails with `MalformedDataset`
at the append call.  In the code the append succeeds: the slide is
appended with the mismatched data stored verbatim, and no error is ever
raised (`add_chart_slide` has no error outcome at all). -/
theorem C2_counterexample :
    ((PPTGenerator.init envNoFiles none).add_chart_slide "Chart"
        ⟨["Q1", "Q2"], [⟨"s", [1, 2, 3]⟩]⟩ "column")
      = ({ slides := [Slide.chartSlide ⟨"Chart", some 36, some ⟨31, 73, 125⟩, some true, false⟩
              XLChartType.columnClustered ⟨["Q1", "Q2"], [⟨"s", [1, 2, 3]⟩]⟩] },
         Slide.chartSlide ⟨"Chart", some 36, some ⟨31, 73, 125⟩, some true, false⟩
           XLChartType.columnClustered ⟨["Q1", "Q2"], [⟨"s", [1, 2, 3]⟩]⟩) := by
  decide

/-- C2 (amended): `add_chart_slide` performs no dataset-shape validation at
all: for every dataset — mismatched or matching — the append succeeds,
appending exactly one chart slide that stores the categories and series
exactly as given. -/
theorem C2_no_dataset_validation (g : PPTGenerator) (t : String) (d : ChartInput) (ct : String) :
    (g.add_chart_slide t d ct).1.slides = g.slides ++ [(g.add_chart_slide t d ct).2] ∧
    (g.add_chart_slide t d ct).2
      = Slide.chartSlide ⟨t, some 36, some g.primary_color, some true, false⟩
          (chart_type_map ct) ⟨d.categories, d.series⟩ :=
  ⟨rfl, rfl⟩

/-- C3: `set_theme_colors` with any channel outside `[0,255]` fails
immediately at the call with the invalid-color error (python-pptx
`RGBColor`'s `ValueError`, the spec's `InvalidColor`); with all channels in
`[0,255]` it succeeds and replaces both theme colors. -/
theorem C3_set_theme_validation (g : PPTGenerator) (p a : Int × Int × Int) :
    (validColor p = false ∨ validColor a = false →
      (g.set_theme_colors p a).2 = some PPTError.invalidColor) ∧
    (validColor p = true → validColor a = true →
      g.set_theme_colors p a
        = ({ g with primary_color := ⟨p.1, p.2.1, p.2.2⟩,
                    accent_color := ⟨a.1, a.2.1, a.2.2⟩ }, none)) := by
  unfold PPTGenerator.set_theme_colors RGBColor.make
  cases hp : validColor p <;> cases ha : validColor a <;> simp [hp, ha]

/-- C3 witness: channel 256 is rejected, channel 255 accepted. -/
theorem C3_witness :
    (PPTGenerator.set_theme_colors {} (256, 0, 0) (0, 0, 0)).2 = some PPTError.invalidColor ∧
    PPTGenerator.set_theme_colors {} (255, 255, 255) (0, 0, 0)
      = ({ slides := [], title_font_size := 44, subtitle_font_size := 28,
            content_font_size := 18, primary_color := ⟨255, 255, 255⟩,
            accent_color := ⟨0, 0, 0⟩ }, none) :=
  ⟨(C3_set_theme_validation {} (256, 0, 0) (0, 0, 0)).1 (Or.inl (by decide)),
   (C3_set_theme_validation {} (255, 255, 255) (0, 0, 0)).2 (by decide) (by decide)⟩

/-- C4 counterexample: the claim says a nonexistent image path makes the
subsequent `save` fail with `ImageNotFound`.  In the code the missing
image is silently skipped at append time (`if os.path.exists(image_path)`)
and never rechecked, so `save` succeeds: here the append yields one slide
and the save returns `ok` with the written path, not an error. -/
theorem C4_counterexample :
    (((PPTGenerator.init envNoFiles none).add_image_slide envNoFiles "T" "missing.png"
        "cap").1).get_slide_count = 1 ∧
    ((((PPTGenerator.init envNoFiles none).add_image_slide envNoFiles "T" "missing.png"
        "cap").1).save envNoFiles (fun _ => none) "out").2.2
      = Except.ok "/work/out.pptx" :=
  ⟨by decide, rfl⟩

/-- C4 (amended): for every image path that does not exist,
`add_image_slide` succeeds, appending one slide that contains no picture
(and no caption), and the subsequent `save` also succeeds, returning the
written path — the missing image is silently skipped, never reported. -/
theorem C4_missing_image_skipped (g : PPTGenerator) (env : Env) (t path cap : String)
    (h : env.fileExists path = false) :
    (g.add_image_slide env t path cap).2
      = Slide.imageSlide ⟨t, some 36, some g.primary_color, some true, true⟩ none none ∧
    (g.add_image_slide env t path cap).1.slides
      = g.slides ++ [Slide.imageSlide ⟨t, some 36, some g.primary_color, some true, true⟩
          none none] ∧
    ∀ store fn, env.writeFails (abspath env.cwd (fixExt fn)) = false →
      ((g.add_image_slide env t path cap).1.save env store fn).2.2
        = Except.ok (abspath env.cwd (fixExt fn)) := by
  refine ⟨?_, ?_, ?_⟩
  · simp [PPTGenerator.add_image_slide, h]
  · simp [PPTGenerator.add_image_slide, h]
  · intro store fn hw
    simp [PPTGenerator.save, hw]

/-- C4 witness: concrete missing image, append then save both succeed. -/
theorem C4_witness :
    envNoFiles.fileExists "missing.png" = false ∧
    ((PPTGenerator.init envNoFiles none).add_image_slide envNoFiles "T" "missing.png" "c").2
      = Slide.imageSlide ⟨"T", some 36, some ⟨31, 73, 125⟩, some true, true⟩ none none ∧
    (((PPTGenerator.init envNoFiles none).add_image_slide envNoFiles "T" "missing.png"
        "c").1.save envNoFiles (fun _ => none) "deck").2.2
      = Except.ok "/work/deck.pptx" := by
  refine ⟨rfl, (C4_missing_image_skipped _ envNoFiles "T" "missing.png" "c" rfl).1, ?_⟩
  have h := (C4_missing_image_skipped (PPTGenerator.init envNoFiles none) envNoFiles "T"
    "missing.png" "c" rfl).2.2 (fun _ => none) "deck" rfl
  rw [h]
  rfl

/-- C5 counterexample: the claim says the 1-based numbering is applied at
render/save time rather than stored pre-formatted on the accumulated
slide.  In the code `add_content_slide` writes `"{i+1}. {item}"` into the
paragraphs immediately: the slide returned by the append call — before any
save — already stores `"1. A"` and `"2. B"`. -/
theorem C5_counterexample :
    ((PPTGenerator.init envNoFiles none).add_content_slide "T" ["A", "B"] "numbered").2
      = Slide.contentSlide ⟨"T", some 36, some ⟨31, 73, 125⟩, some true, false⟩
          [⟨"1. A", some 18, some ⟨64, 64, 64⟩, none, false⟩,
           ⟨"2. B", some 18, some ⟨64, 64, 64⟩, none, false⟩] := by
  decide

/-- C5 (amended): with `layout_type = "numbered"` each item is prefixed
with its 1-based position in insertion order — but the prefix is applied
at append time and stored on the accumulated slide; `save` then writes the
accumulated slides unchanged, so the saved output carries the same
prefixed texts. -/
theorem C5_numbered_prefix_at_append (g : PPTGenerator) (t : String) (items : List String)
    (h : items ≠ []) :
    ((g.add_content_slide t items "numbered").2).contentTexts
      = items.enum.map (fun p => toString (p.1 + 1) ++ ". " ++ p.2) ∧
    ∀ env store fn, env.writeFails (abspath env.cwd (fixExt fn)) = false →
      (((g.add_content_slide t items "numbered").1).save env store fn).2.1
          (abspath env.cwd (fixExt fn))
        = some ((g.add_content_slide t items "numbered").1).slides := by
  constructor
  · match items, h with
    | x :: xs, _ =>
      simp only [PPTGenerator.add_content_slide, contentParas, Slide.contentTexts,
        List.map_map]
      refine List.map_congr_left fun p _ => ?_
      simp
  · intro env store fn hw
    simp [PPTGenerator.save, hw]

/-- C5 witness: items `["A","B"]` give texts `"1. A"`, `"2. B"`, and the
file written by `save` holds the accumulated slides. -/
theorem C5_witness :
    (((PPTGenerator.init envNoFiles none).add_content_slide "T" ["A", "B"]
        "numbered").2).contentTexts = ["1. A", "2. B"] ∧
    ((((PPTGenerator.init envNoFiles none).add_content_slide "T" ["A", "B"]
        "numbered").1).save envNoFiles (fun _ => none) "deck").2.1 "/work/deck.pptx"
      = some (((PPTGenerator.init envNoFiles none).add_content_slide "T" ["A", "B"]
          "numbered").1).slides := by
  constructor
  · rw [(C5_numbered_prefix_at_append (PPTGenerator.init envNoFiles none) "T" ["A", "B"]
      (by decide)).1]
    rfl
  · have h := (C5_numbered_prefix_at_append (PPTGenerator.init envNoFiles none) "T" ["A", "B"]
      (by decide)).2 envNoFiles (fun _ => none) "deck" rfl
    have hp : abspath envNoFiles.cwd (fixExt "deck") = "/work/deck.pptx" := by rfl
    rw [hp] at h
    exact h

/-- A string ends with anything appended to it. -/
theorem strEndsWith_append_right (a b : String) : strEndsWith (a ++ b) b = true := by
  simp [strEndsWith, String.data_append, List.isSuffixOf_iff_suffix, List.suffix_append]

/-- The filename used by `save` always carries the `.pptx` extension. -/
theorem fixExt_endsWith (f : String) : strEndsWith (fixExt f) ".pptx" = true := by
  unfold fixExt
  cases h : strEndsWith f ".pptx" with
  | false => simpa using strEndsWith_append_right f ".pptx"
  | true => simpa using h

/-- Resolving a path against the working directory keeps its suffix. -/
theorem strEndsWith_abspath (cwd s post : String) (h : strEndsWith s post = true) :
    strEndsWith (abspath cwd s) post = true := by
  unfold abspath
  split
  · exact h
  · simp only [strEndsWith, String.data_append, List.isSuffixOf_iff_suffix] at h ⊢
    exact h.trans (List.suffix_append _ _)

/-- C6: `save` writes exactly one file — at the resolved absolute path of
the given filename with the canonical `.pptx` extension appended exactly
when absent — and returns that path. -/
theorem C6_save_writes_one_file (g : PPTGenerator) (env : Env) (store : FileStore)
    (filename : String)
    (h : env.writeFails (abspath env.cwd (fixExt filename)) = false) :
    (g.save env store filename).2.2 = Except.ok (abspath env.cwd (fixExt filename)) ∧
    strEndsWith (abspath env.cwd (fixExt filename)) ".pptx" = true ∧
    (strEndsWith filename ".pptx" = true → fixExt filename = filename) ∧
    (strEndsWith filename ".pptx" = false → fixExt filename = filename ++ ".pptx") ∧
    (g.save env store filename).2.1 (abspath env.cwd (fixExt filename)) = some g.slides ∧
    (∀ q, q ≠ abspath env.cwd (fixExt filename) → (g.save env store filename).2.1 q = store q) := by
  refine ⟨?_, strEndsWith_abspath _ _ _ (fixExt_endsWith filename), ?_, ?_, ?_, ?_⟩
  · simp [PPTGenerator.save, h]
  · intro he; simp [fixExt, he]
  · intro he; simp [fixExt, he]
  · simp [PPTGenerator.save, h]
  · intro q hq; simp [PPTGenerator.save, h, hq]

/-- C6 witness: saving `"deck"` writes `/work/deck.pptx` and returns it. -/
theorem C6_witness :
    ((PPTGenerator.init envNoFiles none).save envNoFiles (fun _ => none) "deck").2.2
      = Except.ok (abspath envNoFiles.cwd (fixExt "deck")) ∧
    strEndsWith (abspath envNoFiles.cwd (fixExt "deck")) ".pptx" = true ∧
    fixExt "deck" = "deck" ++ ".pptx" :=
  ⟨(C6_save_writes_one_file (PPTGenerator.init envNoFiles none) envNoFiles (fun _ => none)
      "deck" rfl).1,
   (C6_save_writes_one_file (PPTGenerator.init envNoFiles none) envNoFiles (fun _ => none)
      "deck" rfl).2.1,
   (C6_save_writes_one_file (PPTGenerator.init envNoFiles none) envNoFiles (fun _ => none)
      "deck" rfl).2.2.2.1 (by decide)⟩

/-- C7: `save` never mutates the accumulated presentation state.  Two
consecutive saves of the same unmodified generator to different paths both
succeed and write the same slide sequence (hence files with equal slide
counts) at both paths, and a failed save returns the generator and the
file store unchanged, so it can simply be called again. -/
theorem C7_save_no_mutation (g : PPTGenerator) (env : Env) (store : FileStore) (f1 f2 : String)
    (h1 : env.writeFails (abspath env.cwd (fixExt f1)) = false)
    (h2 : env.writeFails (abspath env.cwd (fixExt f2)) = false)
    (hne : abspath env.cwd (fixExt f1) ≠ abspath env.cwd (fixExt f2)) :
    (g.save env store f1).1 = g ∧
    (g.save env store f1).2.2 = Except.ok (abspath env.cwd (fixExt f1)) ∧
    (((g.save env store f1).1).save env ((g.save env store f1).2.1) f2).1 = g ∧
    (((g.save env store f1).1).save env ((g.save env store f1).2.1) f2).2.2
      = Except.ok (abspath env.cwd (fixExt f2)) ∧
    (((g.save env store f1).1).save env ((g.save env store f1).2.1) f2).2.1
        (abspath env.cwd (fixExt f1)) = some g.slides ∧
    (((g.save env store f1).1).save env ((g.save env store f1).2.1) f2).2.1
        (abspath env.cwd (fixExt f2)) = some g.slides ∧
    (∀ env2 store2 f3, env2.writeFails (abspath env2.cwd (fixExt f3)) = true →
      g.save env2 store2 f3 = (g, store2, Except.error PPTError.ioError)) := by
  refine ⟨?_, ?_, ?_, ?_, ?_, ?_, ?_⟩
  · simp [PPTGenerator.save, h1]
  · simp [PPTGenerator.save, h1]
  · simp [PPTGenerator.save, h1, h2]
  · simp [PPTGenerator.save, h1, h2]
  · simp [PPTGenerator.save, h1, h2, hne]
  · simp [PPTGenerator.save, h1, h2]
  · intro env2 store2 f3 hw
    simp [PPTGenerator.save, hw]

/-- C7 witness: saving to `"a"` then `"b"` succeeds twice, leaves the
generator unchanged, and both written files hold the same slides. -/
theorem C7_witness :
    ((((PPTGenerator.init envNoFiles none).save envNoFiles (fun _ => none) "a").1).save
        envNoFiles
        (((PPTGenerator.init envNoFiles none).save envNoFiles (fun _ => none) "a").2.1)
        "b").1 = PPTGenerator.init envNoFiles none ∧
    ((((PPTGenerator.init envNoFiles none).save envNoFiles (fun _ => none) "a").1).save
        envNoFiles
        (((PPTGenerator.init envNoFiles none).save envNoFiles (fun _ => none) "a").2.1)
        "b").2.1 "/work/a.pptx" = some (PPTGenerator.init envNoFiles none).slides ∧
    ((((PPTGenerator.init envNoFiles none).save envNoFiles (fun _ => none) "a").1).save
        envNoFiles
        (((PPTGenerator.init envNoFiles none).save envNoFiles (fun _ => none) "a").2.1)
        "b").2.1 "/work/b.pptx" = some (PPTGenerator.init envNoFiles none).slides := by
  have h := C7_save_no_mutation (PPTGenerator.init envNoFiles none) envNoFiles (fun _ => none)
    "a" "b" rfl rfl (by decide)
  exact ⟨h.2.2.1, h.2.2.2.2.1, h.2.2.2.2.2.1⟩

/-- C8: a successful `set_theme_colors` replaces exactly the two theme
colors: the slide list is untouched — every already-appended slide keeps
the color values baked into it when it was appended — the font sizes are
untouched, and a slide appended after the call picks up the new primary
color for its title. -/
theorem C8_set_theme_only_replaces_theme (g : PPTGenerator) (p a : Int × Int × Int)
    (hp : validColor p = true) (ha : validColor a = true) :
    ((g.set_theme_colors p a).1).slides = g.slides ∧
    ((g.set_theme_colors p a).1).title_font_size = g.title_font_size ∧
    ((g.set_theme_colors p a).1).subtitle_font_size = g.subtitle_font_size ∧
    ((g.set_theme_colors p a).1).content_font_size = g.content_font_size ∧
    ((g.set_theme_colors p a).1).primary_color = ⟨p.1, p.2.1, p.2.2⟩ ∧
    ((g.set_theme_colors p a).1).accent_color = ⟨a.1, a.2.1, a.2.2⟩ ∧
    (∀ t s au, ((((g.set_theme_colors p a).1).add_title_slide t s au).2).titleOf.color
        = some ⟨p.1, p.2.1, p.2.2⟩) := by
  unfold PPTGenerator.set_theme_colors RGBColor.make
  simp [hp, ha, PPTGenerator.add_title_slide, Slide.titleOf]

/-- C8 witness: an already-appended title slide keeps its old color after
the theme change, and only the next appended slide uses the new color. -/
theorem C8_witness :
    ((((PPTGenerator.init envNoFiles none).add_title_slide "Old" "" "").1).set_theme_colors
        (1, 2, 3) (4, 5, 6)).1.slides
      = (((PPTGenerator.init envNoFiles none).add_title_slide "Old" "" "").1).slides ∧
    ((((((PPTGenerator.init envNoFiles none).add_title_slide "Old" "" "").1).set_theme_colors
        (1, 2, 3) (4, 5, 6)).1).add_title_slide "New" "" "").2.titleOf.color
      = some ⟨1, 2, 3⟩ := by
  have h := C8_set_theme_only_replaces_theme
    (((PPTGenerator.init envNoFiles none).add_title_slide "Old" "" "").1)
    (1, 2, 3) (4, 5, 6) (by decide) (by decide)
  exact ⟨h.1, h.2.2.2.2.2.2 "New" "" ""⟩

/-- C9: constructing the generator with a template path that does not
resolve to an existing file never raises: `__init__` guards the load with
`os.path.exists`, so the state is exactly the blank default presentation
with zero slides, the same as constructing with no template at all. -/
theorem C9_missing_template_fallback (env : Env) (p : String)
    (h : env.fileExists p = false) :
    PPTGenerator.init env (some p) = PPTGenerator.init env none ∧
    (PPTGenerator.init env (some p)).get_slide_count = 0 := by
  unfold PPTGenerator.init
  simp [h, PPTGenerator.get_slide_count]

/-- C9 witness: a concrete missing template file. -/
theorem C9_witness :
    PPTGenerator.init envNoFiles (some "missing_template.pptx")
      = PPTGenerator.init envNoFiles none ∧
    (PPTGenerator.init envNoFiles (some "missing_template.pptx")).get_slide_count = 0 :=
  C9_missing_template_fallback envNoFiles "missing_template.pptx" rfl

/-- C10: `add_chart_slide` with a `chart_type` outside
`{"column","line","pie"}` does not fail: `chart_type_map.get` falls back
to `XL_CHART_TYPE.COLUMN_CLUSTERED`, and one clustered-column chart slide
is appended. -/
theorem C10_unknown_chart_type_falls_back (g : PPTGenerator) (t : String) (d : ChartInput)
    (ct : String) (h1 : ct ≠ "column") (h2 : ct ≠ "line") (h3 : ct ≠ "pie") :
    (g.add_chart_slide t d ct).1.slides = g.slides ++ [(g.add_chart_slide t d ct).2] ∧
    (g.add_chart_slide t d ct).2
      = Slide.chartSlide ⟨t, some 36, some g.primary_color, some true, false⟩
          XLChartType.columnClustered ⟨d.categories, d.series⟩ := by
  refine ⟨rfl, ?_⟩
  unfold PPTGenerator.add_chart_slide chart_type_map
  simp [h1, h2, h3]

/-- C10 witness: the unknown chart type `"bar"` yields a clustered-column
chart slide. -/
theorem C10_witness :
    ((PPTGenerator.init envNoFiles none).add_chart_slide "Ch"
        ⟨["Q1"], [⟨"s", [1]⟩]⟩ "bar").2
      = Slide.chartSlide ⟨"Ch", some 36, some ⟨31, 73, 125⟩, some true, false⟩
          XLChartType.columnClustered ⟨["Q1"], [⟨"s", [1]⟩]⟩ :=
  (C10_unknown_chart_type_falls_back (PPTGenerator.init envNoFiles none) "Ch"
    ⟨["Q1"], [⟨"s", [1]⟩]⟩ "bar" (by decide) (by decide) (by decide)).2

end PPT
